import Mathlib

/-!
Shallow embedding of the session/token authentication subsystem of the
htmx-fastapi-service repository (src/main.py, src/models.py).

Time is modelled as a natural number of seconds (Unix timestamp).  A JWT is
modelled as its decoded payload together with the secret that signed it:
`jwt.encode` pairs the payload with the signing secret, and `jwt.decode`
succeeds exactly when the presented secret equals the signing secret, the
embedded `exp` claim has not passed (python-jose validates `exp` during
decode and raises `ExpiredSignatureError`, a `JWTError`, when `exp < now`),
and the embedded `sub` claim is a string (python-jose validates `sub` by
default and raises `JWTClaimsError`, a `JWTError`, when a present `sub` is
not a string — the encoded payloads here always carry a `sub` key, which is
`null` when `TokenData.sub` is `None`).
bcrypt is modelled as an ideal salted hash: `hashpw` records the salt and the
password, and `checkpw` succeeds exactly when the presented password equals
the hashed one (no collisions).
-/

namespace HtmxFastapi

/-- `TokenData` from src/models.py: both fields optional, default `None`. -/
structure TokenData where
  sub : Option String
  timezone : Option String
deriving DecidableEq

/-- The dict passed to `jwt.encode` in `create_access_token` /
`create_refresh_token`: the `TokenData` fields plus `exp` and `type`. -/
structure Payload where
  sub : Option String
  timezone : Option String
  exp : Nat
  type : String
deriving DecidableEq

/-- A signed JWT: the payload together with the secret it was signed with. -/
structure Token where
  payload : Payload
  secret : String
deriving DecidableEq

/-- The two signing secrets read from the environment at startup:
`SECRET_KEY` and `JWT_REFRESH_SECRET` (src/main.py lines 71-80). -/
structure Config where
  secretKey : String
  jwtRefreshSecret : String
deriving DecidableEq

def ACCESS_TOKEN_EXPIRE_MINUTES : Nat := 30

def REFRESH_TOKEN_EXPIRE_DAYS : Nat := 7

/-- `jwt.encode(to_encode, secret, algorithm=ALGORITHM)`. -/
def jwtEncode (p : Payload) (secret : String) : Token := ⟨p, secret⟩

/-- `jwt.decode(token, secret, algorithms=[ALGORITHM])` at wall-clock `now`:
succeeds iff the signature verifies (the token was signed with `secret`),
the `exp` claim is not in the past (jose rejects when `exp < now`), and the
`sub` claim is a string (jose's default `sub` validation rejects a payload
whose present `sub` key is not a string, as when `TokenData.sub` is `None`). -/
def jwtDecode (t : Token) (secret : String) (now : Nat) : Option Payload :=
  if t.secret = secret ∧ ¬ t.payload.exp < now ∧ t.payload.sub ≠ none then
    some t.payload
  else none

/-- The expiry computed in `create_access_token`/`create_refresh_token`:
`expire = now + expires_delta` when `expires_delta` is truthy (present and
non-zero), else `now + default`. -/
def tokenExpiry (now defaultTtl : Nat) (expires_delta : Option Nat) : Nat :=
  match expires_delta with
  | some d => if d ≠ 0 then now + d else now + defaultTtl
  | none => now + defaultTtl

/-- `create_access_token` (src/main.py lines 202-211): encodes the claims
plus `exp` and `type = "access"` under `SECRET_KEY`. -/
def create_access_token (cfg : Config) (data : TokenData) (now : Nat)
    (expires_delta : Option Nat) : Token :=
  jwtEncode
    { sub := data.sub, timezone := data.timezone,
      exp := tokenExpiry now (ACCESS_TOKEN_EXPIRE_MINUTES * 60) expires_delta,
      type := "access" }
    cfg.secretKey

/-- `create_refresh_token` (src/main.py lines 214-223): encodes the claims
plus `exp` and `type = "refresh"` under `JWT_REFRESH_SECRET`. -/
def create_refresh_token (cfg : Config) (data : TokenData) (now : Nat)
    (expires_delta : Option Nat) : Token :=
  jwtEncode
    { sub := data.sub, timezone := data.timezone,
      exp := tokenExpiry now (REFRESH_TOKEN_EXPIRE_DAYS * 24 * 60 * 60) expires_delta,
      type := "refresh" }
    cfg.jwtRefreshSecret

/-- `verify_token` (src/main.py lines 226-239): pick the secret by the
expected type, decode (signature + expiry), check the embedded `type` claim,
and build a `TokenData` from the payload (pydantic ignores the extra `exp`
and `type` keys).  Every failure returns `None`. -/
def verify_token (cfg : Config) (token : Token) (token_type : String)
    (now : Nat) : Option TokenData :=
  let secret := if token_type = "access" then cfg.secretKey else cfg.jwtRefreshSecret
  match jwtDecode token secret now with
  | none => none
  | some payload =>
      if payload.type ≠ token_type then none
      else some { sub := payload.sub, timezone := payload.timezone }

/-- A bcrypt hash: the salt and the password it hashed (ideal hash model). -/
structure BcryptHash where
  salt : String
  pw : String
deriving DecidableEq

/-- `hash_password` (src/main.py lines 87-91): salted bcrypt hash. -/
def hash_password (password : String) (salt : String) : BcryptHash :=
  ⟨salt, password⟩

/-- `verify_password` (src/main.py lines 94-99): `bcrypt.checkpw`, true iff
the plaintext matches the hashed password. -/
def verify_password (plain_password : String) (hashed_password : BcryptHash) : Bool :=
  plain_password = hashed_password.pw

/-- `User` from src/models.py. -/
structure User where
  username : String
  password : BcryptHash
  timezone : Option String
deriving DecidableEq

/-- `authenticate_user` (src/main.py lines 242-246): succeeds only for the
provisioned demo principal. -/
def authenticate_user (demo : User) (username password : String) : Option User :=
  if username = demo.username ∧ verify_password password demo.password then
    some demo
  else none

/-- `UserResponse` from src/models.py: `timezone` is a required `str`. -/
structure UserResponse where
  username : String
  timezone : String
deriving DecidableEq

/-- Outcome of `get_current_user`: success, an `HTTPException(401, detail)`
(the detail string is serialized into the JSON response body by FastAPI, so
it is caller-visible), or a pydantic `ValidationError` raised while
constructing the `UserResponse` (surfaced as a server error, not a 401). -/
inductive AuthResult where
  | ok : UserResponse → AuthResult
  | unauthorized : String → AuthResult
  | validationError : AuthResult
deriving DecidableEq

/-- `get_current_user` (src/main.py lines 249-275): requires the `jwt_token`
cookie, verifies it as an access token, requires a non-`None` subject,
requires the embedded timezone to equal the `user_timezone` cookie, and
returns `UserResponse(username=sub, timezone=timezone)`.  The final
construction fails with a `ValidationError` when the embedded timezone is
`None` (the `UserResponse.timezone` field requires a `str`). -/
def get_current_user (cfg : Config) (jwt_token : Option Token)
    (user_timezone : Option String) (now : Nat) : AuthResult :=
  match jwt_token with
  | none => .unauthorized "Not authenticated"
  | some tok =>
      match verify_token cfg tok "access" now with
      | none => .unauthorized "Invalid token"
      | some token_data =>
          match token_data.sub with
          | none => .unauthorized "Invalid token"
          | some s =>
              if token_data.timezone ≠ user_timezone then
                .unauthorized "Timezone mismatch"
              else
                match token_data.timezone with
                | some tz => .ok { username := s, timezone := tz }
                | none => .validationError

/-- A value stored in a response cookie: a signed token or a plain string. -/
inductive CookieValue where
  | tok : Token → CookieValue
  | str : String → CookieValue
deriving DecidableEq

/-- A rendered response of the `/api/login` endpoint: on failure the
rendered `login_error.html` error string and no `set_cookie` calls; on
success the `set_cookie` calls made, in order. -/
structure LoginResponse where
  success : Bool
  errorMessage : Option String
  cookies : List (String × CookieValue)
deriving DecidableEq

/-- Outcome of the `/api/login` endpoint: a rendered response, or the
unhandled pydantic `ValidationError` raised while constructing the
`LoginRequest` (surfaced as a server error, with no cookies set). -/
inductive LoginResult where
  | response : LoginResponse → LoginResult
  | validationError : LoginResult
deriving DecidableEq

/-- The `LoginRequest` field validation from src/models.py lines 6-10:
`username` length 1..50, `password` length 1..100, `user_timezone` length
1..50. -/
def loginRequestValid (username password user_timezone : String) : Bool :=
  1 ≤ username.length && username.length ≤ 50 &&
  (1 ≤ password.length && password.length ≤ 100) &&
  (1 ≤ user_timezone.length && user_timezone.length ≤ 50)

/-- `login` (src/main.py lines 307-373): build the `LoginRequest` (whose
field validation raises a pydantic `ValidationError` on empty or over-long
fields, before any credential check); then authenticate the credentials; on
failure render the generic error with no cookies; on success issue the
access and refresh tokens carrying `sub = username` and
`timezone = user_timezone`, and set the three cookies. -/
def login (cfg : Config) (demo : User) (username password user_timezone : String)
    (now : Nat) : LoginResult :=
  if ¬ loginRequestValid username password user_timezone then .validationError
  else
    match authenticate_user demo username password with
    | none =>
        .response { success := false,
                    errorMessage := some "Invalid username or password",
                    cookies := [] }
    | some user =>
        let token_data : TokenData :=
          { sub := some user.username, timezone := some user_timezone }
        let access_token :=
          create_access_token cfg token_data now (some (ACCESS_TOKEN_EXPIRE_MINUTES * 60))
        let rtok :=
          create_refresh_token cfg token_data now (some (REFRESH_TOKEN_EXPIRE_DAYS * 24 * 60 * 60))
        .response { success := true, errorMessage := none,
                    cookies := [("jwt_token", .tok access_token),
                                ("refresh_token", .tok rtok),
                                ("user_timezone", .str user_timezone)] }

/-- Outcome of the `/api/refresh` endpoint: an `HTTPException(401, detail)`
or the success page with its `set_cookie` calls. -/
inductive RefreshResult where
  | ok : List (String × CookieValue) → RefreshResult
  | unauthorized : String → RefreshResult
deriving DecidableEq

/-- `refresh_token` endpoint (src/main.py lines 422-453): requires the
`refresh_token` cookie, verifies it with expected type `refresh`, requires a
non-`None` subject, then creates a new access token from the refresh token's
claims with a 30-minute expiry and sets only the `jwt_token` cookie. -/
def refresh_token (cfg : Config) (refresh_cookie : Option Token)
    (now : Nat) : RefreshResult :=
  match refresh_cookie with
  | none => .unauthorized "No refresh token provided"
  | some tok =>
      match verify_token cfg tok "refresh" now with
      | none => .unauthorized "Invalid refresh token"
      | some token_data =>
          match token_data.sub with
          | none => .unauthorized "Invalid refresh token"
          | some _ =>
              let new_access_token :=
                create_access_token cfg token_data now
                  (some (ACCESS_TOKEN_EXPIRE_MINUTES * 60))
              .ok [("jwt_token", .tok new_access_token)]

/-! ## Helper lemmas -/

/-- A token signed with the secret that `verify_token` selects for the
expected type, carrying that type, a string subject and an unexpired `exp`,
verifies to its embedded claims. -/
theorem verify_token_eq_some (cfg : Config) (tok : Token) (ty : String) (vt : Nat)
    (hsec : tok.secret = (if ty = "access" then cfg.secretKey else cfg.jwtRefreshSecret))
    (hty : tok.payload.type = ty) (hexp : ¬ tok.payload.exp < vt)
    (hsub : tok.payload.sub ≠ none) :
    verify_token cfg tok ty vt =
      some { sub := tok.payload.sub, timezone := tok.payload.timezone } := by
  simp [verify_token, jwtDecode, hsec, hty, hexp, hsub]

/-- A token whose embedded `type` claim differs from the expected type is
rejected by `verify_token`, whatever its secret and expiry. -/
theorem verify_token_type_mismatch (cfg : Config) (tok : Token) (ty : String)
    (vt : Nat) (h : tok.payload.type ≠ ty) :
    verify_token cfg tok ty vt = none := by
  unfold verify_token jwtDecode
  by_cases hc : tok.secret = (if ty = "access" then cfg.secretKey else cfg.jwtRefreshSecret) ∧
      ¬ tok.payload.exp < vt ∧ tok.payload.sub ≠ none
  · simp [hc, h]
  · simp only [Nat.not_lt] at hc
    simp [hc]

/-! ## Claims -/

/-- Claim C1: for every claims set with a subject and a bound timezone
(the spec's claims set `{subject: string, boundAttribute: string}`; jose's
`sub` validation rejects payloads whose subject is not a string), issuing a
token of either type and verifying it with the same expected type, at any
time strictly before the token's `expiresAt`, returns the original claims
(same `sub` and `timezone`). -/
theorem verify_roundtrip (cfg : Config) (s tz : String) (now : Nat)
    (ed : Option Nat) (vt : Nat)
    (ha : vt < (create_access_token cfg ⟨some s, some tz⟩ now ed).payload.exp)
    (hr : vt < (create_refresh_token cfg ⟨some s, some tz⟩ now ed).payload.exp) :
    verify_token cfg (create_access_token cfg ⟨some s, some tz⟩ now ed) "access" vt =
      some ⟨some s, some tz⟩ ∧
    verify_token cfg (create_refresh_token cfg ⟨some s, some tz⟩ now ed) "refresh" vt =
      some ⟨some s, some tz⟩ := by
  constructor
  · rw [verify_token_eq_some cfg _ "access" vt (by simp [create_access_token, jwtEncode])
      (by simp [create_access_token, jwtEncode]) (Nat.not_lt.mpr (Nat.le_of_lt ha))
      (by simp [create_access_token, jwtEncode])]
    simp [create_access_token, jwtEncode]
  · rw [verify_token_eq_some cfg _ "refresh" vt (by simp [create_refresh_token, jwtEncode])
      (by simp [create_refresh_token, jwtEncode]) (Nat.not_lt.mpr (Nat.le_of_lt hr))
      (by simp [create_refresh_token, jwtEncode])]
    simp [create_refresh_token, jwtEncode]

theorem verify_roundtrip_witness :
    (7 : Nat) < (create_access_token ⟨"k", "r"⟩ ⟨some "u", some "tz"⟩ 5 none).payload.exp ∧
    (7 : Nat) < (create_refresh_token ⟨"k", "r"⟩ ⟨some "u", some "tz"⟩ 5 none).payload.exp ∧
    (verify_token ⟨"k", "r"⟩ (create_access_token ⟨"k", "r"⟩ ⟨some "u", some "tz"⟩ 5 none)
        "access" 7 = some ⟨some "u", some "tz"⟩ ∧
      verify_token ⟨"k", "r"⟩ (create_refresh_token ⟨"k", "r"⟩ ⟨some "u", some "tz"⟩ 5 none)
        "refresh" 7 = some ⟨some "u", some "tz"⟩) :=
  ⟨by decide, by decide,
    verify_roundtrip ⟨"k", "r"⟩ "u" "tz" 5 none 7 (by decide) (by decide)⟩

/-- Claim C2: cross-type verification never succeeds — a refresh token
verified with expected type `access` is rejected, and vice versa, at every
verification time and for every configuration (including one where the two
secrets are equal): the embedded `type` claim alone forces rejection. -/
theorem cross_type_rejected (cfg : Config) (d : TokenData) (now : Nat)
    (ed : Option Nat) (vt : Nat) :
    verify_token cfg (create_refresh_token cfg d now ed) "access" vt = none ∧
    verify_token cfg (create_access_token cfg d now ed) "refresh" vt = none := by
  constructor
  · exact verify_token_type_mismatch cfg _ "access" vt
      (by simp [create_refresh_token, jwtEncode])
  · exact verify_token_type_mismatch cfg _ "refresh" vt
      (by simp [create_access_token, jwtEncode])

/-- Claim C4: any token verified at a time strictly after its embedded
`expiresAt` is rejected, for every expected type, even when its signature is
valid for that type's secret and its type claim matches. -/
theorem expired_rejected (cfg : Config) (tok : Token) (ty : String) (vt : Nat)
    (h : tok.payload.exp < vt) :
    verify_token cfg tok ty vt = none := by
  simp [verify_token, jwtDecode, h]

theorem expired_rejected_witness :
    (⟨⟨some "u", some "tz", 100, "access"⟩, "k"⟩ : Token).payload.exp < 101 ∧
    verify_token ⟨"k", "r"⟩ ⟨⟨some "u", some "tz", 100, "access"⟩, "k"⟩ "access" 101 = none :=
  ⟨by decide, expired_rejected ⟨"k", "r"⟩ ⟨⟨some "u", some "tz", 100, "access"⟩, "k"⟩
    "access" 101 (by decide)⟩

/-- Claim C5: `authenticate_user` returns the principal iff the username
equals the provisioned principal's username and the presented secret passes
`verify_password` against the stored salted hash; for every other pair it
returns `None`. -/
theorem authenticate_user_iff (demo : User) (username password : String) :
    (authenticate_user demo username password = some demo ↔
      username = demo.username ∧ verify_password password demo.password = true) ∧
    (authenticate_user demo username password = none ↔
      ¬ (username = demo.username ∧ verify_password password demo.password = true)) := by
  unfold authenticate_user
  split <;> simp_all

theorem authenticate_user_iff_witness :
    (authenticate_user ⟨"demo", ⟨"s", "pw"⟩, none⟩ "demo" "pw" =
        some ⟨"demo", ⟨"s", "pw"⟩, none⟩ ↔
      "demo" = "demo" ∧ verify_password "pw" ⟨"s", "pw"⟩ = true) ∧
    (authenticate_user ⟨"demo", ⟨"s", "pw"⟩, none⟩ "demo" "px" = none ↔
      ¬ ("demo" = "demo" ∧ verify_password "px" ⟨"s", "pw"⟩ = true)) :=
  ⟨(authenticate_user_iff ⟨"demo", ⟨"s", "pw"⟩, none⟩ "demo" "pw").1,
    (authenticate_user_iff ⟨"demo", ⟨"s", "pw"⟩, none⟩ "demo" "px").2⟩

/-- Claim C3: for an access token that `verify_token` accepts with an
embedded subject and timezone, `get_current_user` rejects with a 401
whenever the presented `user_timezone` cookie differs from the embedded
timezone, and when they are equal it succeeds and returns exactly
`{username = subject, timezone = embedded timezone}`. -/
theorem get_current_user_binding (cfg : Config) (tok : Token)
    (cookieTz : Option String) (now : Nat) (s tz : String)
    (hv : verify_token cfg tok "access" now = some ⟨some s, some tz⟩) :
    (cookieTz ≠ some tz →
      get_current_user cfg (some tok) cookieTz now = .unauthorized "Timezone mismatch") ∧
    (cookieTz = some tz →
      get_current_user cfg (some tok) cookieTz now = .ok ⟨s, tz⟩) := by
  simp only [get_current_user, hv]
  constructor
  · intro hne
    simp [Ne.symm hne]
  · intro he
    subst he
    simp

theorem get_current_user_binding_witness :
    verify_token ⟨"k", "r"⟩ ⟨⟨some "u", some "tz", 100, "access"⟩, "k"⟩ "access" 50 =
      some ⟨some "u", some "tz"⟩ ∧
    (some "other" ≠ some "tz" ∧
      get_current_user ⟨"k", "r"⟩ (some ⟨⟨some "u", some "tz", 100, "access"⟩, "k"⟩)
        (some "other") 50 = .unauthorized "Timezone mismatch") :=
  ⟨by decide,
    by decide,
    (get_current_user_binding ⟨"k", "r"⟩ ⟨⟨some "u", some "tz", 100, "access"⟩, "k"⟩
      (some "other") 50 "u" "tz" (by decide)).1 (by decide)⟩

/-- Claim C6: for every refresh token that `verify_token` accepts (with a
non-`None` subject, as the endpoint requires), the refresh endpoint issues a
new access token whose subject and timezone equal the refresh token's claims
and whose `expiresAt` is exactly the issuance time plus 30 minutes. -/
theorem refresh_issues_matching_access (cfg : Config) (tok : Token) (now : Nat)
    (td : TokenData) (s : String)
    (hv : verify_token cfg tok "refresh" now = some td)
    (hs : td.sub = some s) :
    ∃ newTok : Token,
      refresh_token cfg (some tok) now = .ok [("jwt_token", .tok newTok)] ∧
      newTok.payload.sub = td.sub ∧
      newTok.payload.timezone = td.timezone ∧
      newTok.payload.exp = now + 30 * 60 ∧
      newTok.payload.type = "access" := by
  refine ⟨create_access_token cfg td now (some (ACCESS_TOKEN_EXPIRE_MINUTES * 60)), ?_, ?_, ?_, ?_, ?_⟩
  · simp only [refresh_token, hv, hs]
  · rfl
  · rfl
  · simp [create_access_token, jwtEncode, tokenExpiry, ACCESS_TOKEN_EXPIRE_MINUTES]
  · rfl

theorem refresh_issues_matching_access_witness :
    verify_token ⟨"k", "r"⟩ ⟨⟨some "u", some "tz", 900, "refresh"⟩, "r"⟩ "refresh" 40 =
      some ⟨some "u", some "tz"⟩ ∧
    ∃ newTok : Token,
      refresh_token ⟨"k", "r"⟩ (some ⟨⟨some "u", some "tz", 900, "refresh"⟩, "r"⟩) 40 =
        .ok [("jwt_token", .tok newTok)] ∧
      newTok.payload.sub = some "u" ∧
      newTok.payload.timezone = some "tz" ∧
      newTok.payload.exp = 40 + 30 * 60 ∧
      newTok.payload.type = "access" :=
  ⟨by decide,
    refresh_issues_matching_access ⟨"k", "r"⟩ ⟨⟨some "u", some "tz", 900, "refresh"⟩, "r"⟩
      40 ⟨some "u", some "tz"⟩ "u" (by decide) (by decide)⟩

/-- Claim C8 counterexample: with an empty username — an input on which
credential verification fails (the provisioned username is nonempty) — the
endpoint raises a pydantic `ValidationError` constructing the
`LoginRequest` before any credential check: a server error, not the generic
invalid-credentials response the claim asserts (though still no cookies). -/
theorem login_empty_username_cex :
    authenticate_user ⟨"demo", ⟨"s", "pw"⟩, none⟩ "" "pw" = none ∧
    login ⟨"k", "r"⟩ ⟨"demo", ⟨"s", "pw"⟩, none⟩ "" "pw" "tz" 100 =
      .validationError ∧
    login ⟨"k", "r"⟩ ⟨"demo", ⟨"s", "pw"⟩, none⟩ "" "pw" "tz" 100 ≠
      .response { success := false,
                  errorMessage := some "Invalid username or password",
                  cookies := [] } :=
  ⟨by decide, by decide, by decide⟩

/-- Claim C8 (amended): for every login input that passes the
`LoginRequest` field validation and on which credential verification fails,
the login endpoint issues no tokens and sets no cookies: its response is
the fixed generic invalid-credentials message, independent of which field
was wrong; an input failing the field validation instead raises an
unhandled validation error (a server error), which also issues no tokens
and sets no cookies. -/
theorem login_failure_no_cookies (cfg : Config) (demo : User)
    (username password user_timezone : String) (now : Nat)
    (h : authenticate_user demo username password = none) :
    (loginRequestValid username password user_timezone = true →
      login cfg demo username password user_timezone now =
        .response { success := false,
                    errorMessage := some "Invalid username or password",
                    cookies := [] }) ∧
    (loginRequestValid username password user_timezone = false →
      login cfg demo username password user_timezone now = .validationError) := by
  constructor
  · intro hvalid
    simp [login, hvalid, h]
  · intro hinvalid
    simp [login, hinvalid]

theorem login_failure_no_cookies_witness :
    authenticate_user ⟨"demo", ⟨"s", "pw"⟩, none⟩ "demo" "bad" = none ∧
    loginRequestValid "demo" "bad" "tz" = true ∧
    login ⟨"k", "r"⟩ ⟨"demo", ⟨"s", "pw"⟩, none⟩ "demo" "bad" "tz" 100 =
      .response { success := false,
                  errorMessage := some "Invalid username or password",
                  cookies := [] } :=
  ⟨by decide, by decide,
    (login_failure_no_cookies ⟨"k", "r"⟩ ⟨"demo", ⟨"s", "pw"⟩, none⟩
      "demo" "bad" "tz" 100 (by decide)).1 (by decide)⟩

/-- Claim C9: a successful refresh sets exactly one cookie, the `jwt_token`
access cookie holding an access-type token: the `refresh_token` and
`user_timezone` cookies are untouched and no refresh token is reissued, so
the original refresh token's `expiresAt` is unchanged. -/
theorem refresh_frame (cfg : Config) (tok : Token) (now : Nat) (td : TokenData)
    (hv : verify_token cfg tok "refresh" now = some td)
    (hs : td.sub ≠ none) :
    ∃ newTok : Token,
      refresh_token cfg (some tok) now = .ok [("jwt_token", .tok newTok)] ∧
      newTok.payload.type = "access" ∧
      (∀ cookies, refresh_token cfg (some tok) now = .ok cookies →
        cookies.map Prod.fst = ["jwt_token"]) := by
  obtain ⟨s, hsub⟩ := Option.ne_none_iff_exists'.mp hs
  refine ⟨create_access_token cfg td now (some (ACCESS_TOKEN_EXPIRE_MINUTES * 60)), ?_, rfl, ?_⟩
  · simp only [refresh_token, hv, hsub]
  · intro cookies hc
    simp only [refresh_token, hv, hsub] at hc
    cases hc
    rfl

theorem refresh_frame_witness :
    verify_token ⟨"k2", "r2"⟩ ⟨⟨some "v", none, 900, "refresh"⟩, "r2"⟩ "refresh" 41 =
      some ⟨some "v", none⟩ ∧
    ∃ newTok : Token,
      refresh_token ⟨"k2", "r2"⟩ (some ⟨⟨some "v", none, 900, "refresh"⟩, "r2"⟩) 41 =
        .ok [("jwt_token", .tok newTok)] ∧
      newTok.payload.type = "access" ∧
      (∀ cookies,
        refresh_token ⟨"k2", "r2"⟩ (some ⟨⟨some "v", none, 900, "refresh"⟩, "r2"⟩) 41 =
          .ok cookies → cookies.map Prod.fst = ["jwt_token"]) :=
  ⟨by decide,
    refresh_frame ⟨"k2", "r2"⟩ ⟨⟨some "v", none, 900, "refresh"⟩, "r2"⟩ 41
      ⟨some "v", none⟩ (by decide) (by decide)⟩

/-- Claim C10: a verifiable, unexpired access token with no embedded
timezone claim, presented with no timezone cookie, passes the binding
comparison (`None = None`) and then fails constructing the `UserResponse`
(whose `timezone` field requires a string): the outcome is a validation
failure, not a 401 rejection. -/
theorem none_timezone_validation_error (cfg : Config) (s : String) (e now : Nat)
    (h : ¬ e < now) :
    get_current_user cfg (some ⟨⟨some s, none, e, "access"⟩, cfg.secretKey⟩)
      none now = .validationError := by
  unfold get_current_user verify_token jwtDecode
  simp [h]

theorem none_timezone_validation_error_witness :
    ¬ (300 : Nat) < 200 ∧
    get_current_user ⟨"k", "r"⟩ (some ⟨⟨some "u", none, 300, "access"⟩, "k"⟩)
      none 200 = .validationError :=
  ⟨by decide, none_timezone_validation_error ⟨"k", "r"⟩ "u" 300 200 (by decide)⟩

/-- Claim C7 counterexample: two failing authentication attempts — a missing
token and a forged token — surface different outcomes to the caller: both
are 401s, but the caller-visible detail strings differ ("Not authenticated"
vs "Invalid token"), so the failure reasons are externally distinguishable. -/
theorem auth_failure_not_uniform_cex :
    get_current_user ⟨"k", "r"⟩ none none 5 = .unauthorized "Not authenticated" ∧
    get_current_user ⟨"k", "r"⟩ (some ⟨⟨some "u", some "tz", 100, "access"⟩, "wrong"⟩)
      none 5 = .unauthorized "Invalid token" ∧
    get_current_user ⟨"k", "r"⟩ none none 5 ≠
      get_current_user ⟨"k", "r"⟩ (some ⟨⟨some "u", some "tz", 100, "access"⟩, "wrong"⟩)
        none 5 :=
  ⟨by decide, by decide, by decide⟩

/-- Claim C7 (amended): every per-request authentication failure of
`get_current_user` surfaces as the same unauthorized (401) class of outcome,
and all token-verification failures (expired, forged, wrong-type) surface
identically as 401 "Invalid token"; but the caller-visible detail string
distinguishes missing-token, invalid-token, and binding-mismatch failures,
so the outcomes are not fully identical across those three kinds. -/
theorem auth_failures_unauthorized (cfg : Config) (jt : Option Token)
    (tz : Option String) (now : Nat) (d : String) (tok1 tok2 : Token)
    (tz1 tz2 : Option String) (now1 now2 : Nat) :
    (get_current_user cfg jt tz now = .unauthorized d →
      d = "Not authenticated" ∨ d = "Invalid token" ∨ d = "Timezone mismatch") ∧
    (verify_token cfg tok1 "access" now1 = none →
      verify_token cfg tok2 "access" now2 = none →
      get_current_user cfg (some tok1) tz1 now1 =
        get_current_user cfg (some tok2) tz2 now2) := by
  constructor
  · intro h
    unfold get_current_user at h
    repeat' split at h
    all_goals simp_all
  · intro h1 h2
    simp only [get_current_user, h1, h2]

theorem auth_failures_unauthorized_witness :
    ("Not authenticated" = "Not authenticated" ∨
      "Not authenticated" = "Invalid token" ∨
      "Not authenticated" = "Timezone mismatch") ∧
    get_current_user ⟨"k", "r"⟩ (some ⟨⟨some "u", some "tz", 100, "access"⟩, "bad"⟩)
        (some "x") 5 =
      get_current_user ⟨"k", "r"⟩ (some ⟨⟨some "u", some "tz", 3, "access"⟩, "k"⟩)
        none 7 :=
  ⟨(auth_failures_unauthorized ⟨"k", "r"⟩ none none 5 "Not authenticated"
      ⟨⟨some "u", some "tz", 100, "access"⟩, "bad"⟩
      ⟨⟨some "u", some "tz", 3, "access"⟩, "k"⟩ (some "x") none 5 7).1 (by decide),
    (auth_failures_unauthorized ⟨"k", "r"⟩ none none 5 "Not authenticated"
      ⟨⟨some "u", some "tz", 100, "access"⟩, "bad"⟩
      ⟨⟨some "u", some "tz", 3, "access"⟩, "k"⟩ (some "x") none 5 7).2
      (by decide) (by decide)⟩

end HtmxFastapi
